import Mathlib

/-!
Shallow embedding of the sensybull-fe data layer: the feed pagers of the
home, swipe and stock-timeline screens, the API gateway client (token
store, response handling, URL and query construction), the debounced
article search, and the chat screen. Each definition is translated from
the corresponding TypeScript function; JavaScript `Map`, `Set`,
`AsyncStorage` and truthiness are modelled explicitly.
-/

namespace Sensybull

/-- An article as fetched from the backend; identity is the `id` field. -/
structure Article where
  id : String
  title : String
  summary : String
  url : String
  provider : String
  timestamp : Nat
  tickers : List (String × String)
deriving DecidableEq, Repr

/-- Pagination metadata of a paginated list response. -/
structure Pagination where
  has_next : Bool
deriving DecidableEq, Repr

/-- A paginated articles response body. -/
structure ArticlesResponse where
  articles : List Article
  pagination : Pagination
deriving DecidableEq, Repr

/-- JavaScript `Map.get`: the value stored at `k`, if any. -/
def mapGet {α : Type} (m : List (String × α)) (k : String) : Option α :=
  (m.find? (fun p => p.1 == k)).map Prod.snd

/-- JavaScript `Map.set`: replace the entry at `k` if present, else append it. -/
def mapSet {α : Type} (m : List (String × α)) (k : String) (v : α) : List (String × α) :=
  match m with
  | [] => [(k, v)]
  | p :: rest => if p.1 == k then (k, v) :: rest else p :: mapSet rest k v

/-- JavaScript `x || d` for an optional number: `0` is falsy. -/
def jsOrNat (v : Option Nat) (d : Nat) : Nat :=
  match v with
  | some n => if n = 0 then d else n
  | none => d

/-- JavaScript `x || d` for an optional string: the empty string is falsy. -/
def jsOrString (a : Option String) (b : String) : String :=
  match a with
  | some s => if s = "" then b else s
  | none => b

/-- Pager state of the first home screen (`app/(tabs)/index.tsx`, list variant):
`articles`, `loading`, `refreshing`, `page`, `hasMore` `useState` hooks. -/
structure HomeFeedState where
  articles : List Article
  loading : Bool
  refreshing : Bool
  page : Nat
  hasMore : Bool
deriving DecidableEq, Repr

/-- Initial `useState` values of the home feed. -/
def homeFeedInit : HomeFeedState :=
  { articles := [], loading := true, refreshing := false, page := 1, hasMore := true }

/-- Success path of the home screen `loadArticles(pageNum, search)`: page 1
replaces the list, later pages are appended as-is; `hasMore` comes from
`response.pagination.has_next`, `page` becomes `pageNum`, and the `finally`
block clears both loading flags. -/
def loadArticlesSuccess (st : HomeFeedState) (pageNum : Nat) (response : ArticlesResponse) :
    HomeFeedState :=
  { articles := if pageNum = 1 then response.articles else st.articles ++ response.articles
    loading := false
    refreshing := false
    page := pageNum
    hasMore := response.pagination.has_next }

/-- Failure path of the home screen `loadArticles`: the catch block alerts and
the `finally` block clears the loading flags; nothing else changes. -/
def loadArticlesFailure (st : HomeFeedState) : HomeFeedState :=
  { st with loading := false, refreshing := false }

/-- Home screen `handleLoadMore`: fetch the next page only when not loading
and more pages remain. Returns the `(page, search)` of the issued fetch. -/
def homeHandleLoadMore (st : HomeFeedState) (searchQuery : String) : Option (Nat × String) :=
  if st.loading = false ∧ st.hasMore = true then some (st.page + 1, searchQuery) else none

/-- Pager state of the second home screen (topic-tabbed variant): per-topic
maps for articles, page and has-more, plus a shared loading flag. -/
structure TopicFeedState where
  articlesByTopic : List (String × List Article)
  page : List (String × Nat)
  hasMore : List (String × Bool)
  loadingArticles : Bool
deriving DecidableEq, Repr

/-- Initial state of the topic feed: empty maps, not loading. -/
def topicFeedInit : TopicFeedState :=
  { articlesByTopic := [], page := [], hasMore := [], loadingArticles := false }

/-- Success path of `loadArticlesForTopic(topicId, pageNum)`: page 1 replaces
the topic entry with the response; later pages append only the incoming
articles whose id is not already accumulated (`existingIds` is a `Set` of
ids and the incoming page is filtered by `!existingIds.has(a.id)`). -/
def loadArticlesForTopicSuccess (st : TopicFeedState) (topicId : String) (pageNum : Nat)
    (response : ArticlesResponse) : TopicFeedState :=
  let existingArticles := (mapGet st.articlesByTopic topicId).getD []
  let existingIds := existingArticles.map Article.id
  let newUniqueArticles := response.articles.filter (fun a => !(existingIds.contains a.id))
  let newArticles := if pageNum = 1 then response.articles else existingArticles ++ newUniqueArticles
  { articlesByTopic := mapSet st.articlesByTopic topicId newArticles
    page := mapSet st.page topicId pageNum
    hasMore := mapSet st.hasMore topicId response.pagination.has_next
    loadingArticles := false }

/-- A sequence of completed `loadArticlesForTopic` calls for one topic, each
given as the requested page number and the server response. -/
def runTopicLoads (st : TopicFeedState) (topicId : String)
    (steps : List (Nat × ArticlesResponse)) : TopicFeedState :=
  steps.foldl (fun s pr => loadArticlesForTopicSuccess s topicId pr.1 pr.2) st

/-- A followed topic as shown in the topic tabs. -/
structure Topic where
  id : String
  name : String
deriving DecidableEq, Repr

/-- Topic-tab home screen `handleLoadMore`: guarded by a nonempty topic list
and `!loadingArticles`; `currentPage` is `page.get(id) || 1`, `hasMorePages`
is `hasMore.get(id) ?? true`; a fetch for `currentPage + 1` is issued only
when `hasMorePages` holds. Returns the `(topicId, page)` of the fetch. -/
def handleLoadMore (st : TopicFeedState) (topics : List Topic) (selectedTopicIndex : Nat) :
    Option (String × Nat) :=
  if 0 < topics.length ∧ st.loadingArticles = false then
    let selectedTopic := topics.getD selectedTopicIndex ⟨"", ""⟩
    let currentPage := jsOrNat (mapGet st.page selectedTopic.id) 1
    let hasMorePages := (mapGet st.hasMore selectedTopic.id).getD true
    if hasMorePages then some (selectedTopic.id, currentPage + 1) else none
  else
    none

/-- Pager state of the swipe screen (`app/(tabs)/swipe.tsx`). -/
structure SwipeState where
  articles : List Article
  loading : Bool
  currentIndex : Nat
  fetchingMore : Bool
  page : Nat
deriving DecidableEq, Repr

/-- Swipe screen `handleSwipedAll`: unconditionally calls
`loadArticles(page + 1)`. Returns the page number of the issued fetch. -/
def handleSwipedAll (st : SwipeState) : Option Nat :=
  some (st.page + 1)

/-- Swipe screen `handleSwiped(index)`: advances `currentIndex` and fetches
the next page when near the end of the deck and not already fetching. -/
def handleSwiped (st : SwipeState) (index : Nat) : SwipeState × Option Nat :=
  let st2 := { st with currentIndex := index + 1 }
  if st.articles.length - 3 ≤ index ∧ st.fetchingMore = false then
    (st2, some (st.page + 1))
  else
    (st2, none)

/-- Pager state of the stock timeline screen (`app/stock/[symbol].tsx`). -/
structure StockFeedState where
  articles : List Article
  loading : Bool
  loadingMore : Bool
  page : Nat
  hasMore : Bool
deriving DecidableEq, Repr

/-- Success path of the stock screen `loadArticles(pageNum)`: page 1 replaces
the list, later pages append as-is; `hasMore` is set to
`response.articles.length === 20` (the pagination metadata is not read);
`page` becomes `pageNum` and the `finally` block clears the loading flags. -/
def stockLoadArticlesSuccess (st : StockFeedState) (pageNum : Nat)
    (response : ArticlesResponse) : StockFeedState :=
  { articles := if pageNum = 1 then response.articles else st.articles ++ response.articles
    loading := false
    loadingMore := false
    page := pageNum
    hasMore := response.articles.length == 20 }

/-- State owned by the `ApiService` singleton: the persisted key-value
storage (`AsyncStorage`, modelled as an association list with infallible
reads and writes) and the in-memory `token` field. -/
structure ApiState where
  storage : List (String × String)
  token : Option String
deriving DecidableEq, Repr

/-- AsyncStorage `removeItem`: drop the entry stored under `k`. -/
def storageRemove (m : List (String × String)) (k : String) : List (String × String) :=
  m.filter (fun p => p.1 != k)

/-- ApiService `clearToken`: remove the persisted `access_token` and
`refresh_token` keys and null the in-memory token. -/
def clearToken (st : ApiState) : ApiState :=
  { storage := storageRemove (storageRemove st.storage "access_token") "refresh_token"
    token := none }

/-- The `error` field of a parsed JSON error body, when present. -/
structure ErrorEnvelope where
  error : Option String
deriving DecidableEq, Repr

/-- An HTTP response as seen by `handleResponse`: its status code, and its
body parsed as JSON (`none` when the body is not parseable JSON). -/
structure HttpResponse where
  status : Nat
  body : Option ErrorEnvelope
deriving DecidableEq, Repr

/-- Fetch `Response.ok`: status in the 200–299 range. -/
def HttpResponse.ok (r : HttpResponse) : Bool :=
  200 ≤ r.status ∧ r.status ≤ 299

/-- Errors thrown by the gateway client. -/
inductive ApiError where
  | authenticationRequired
  | requestFailed (message : String)
deriving DecidableEq, Repr

/-- ApiService `handleResponse`: a 401 clears the tokens and throws
`Authentication required`; any other non-ok response throws the `error`
field of the JSON body (JS truthiness: an absent or empty message falls
back to `Request failed`, as does an unparseable body); an ok response
returns its parsed body. -/
def handleResponse (st : ApiState) (r : HttpResponse) :
    ApiState × Except ApiError (Option ErrorEnvelope) :=
  if r.status = 401 then
    (clearToken st, Except.error ApiError.authenticationRequired)
  else if !r.ok then
    let env := r.body.getD { error := some "Request failed" }
    let msg := jsOrString env.error "Request failed"
    (st, Except.error (ApiError.requestFailed msg))
  else
    (st, Except.ok r.body)

/-- JavaScript `String.prototype.toUpperCase` on basic-latin text: each
character is uppercased (`Char.toUpper` maps a–z to A–Z and fixes the rest). -/
def jsToUpperCase (s : String) : String :=
  ⟨s.data.map Char.toUpper⟩

/-- Request URL of `getTicker(tickerSymbol)`: the symbol is uppercased. -/
def getTickerUrl (baseUrl tickerSymbol : String) : String :=
  baseUrl ++ "/tickers/" ++ jsToUpperCase tickerSymbol

/-- Request URL of `followTicker(tickerSymbol)`: the symbol is uppercased. -/
def followTickerUrl (baseUrl tickerSymbol : String) : String :=
  baseUrl ++ "/tickers/" ++ jsToUpperCase tickerSymbol ++ "/follow"

/-- Request URL of `unfollowTicker(tickerSymbol)`: the symbol is uppercased. -/
def unfollowTickerUrl (baseUrl tickerSymbol : String) : String :=
  baseUrl ++ "/tickers/" ++ jsToUpperCase tickerSymbol ++ "/unfollow"

/-- Request URL of `getArticlesByTicker(ticker, page, perPage)`: the symbol
is interpolated into the path as passed, with no case conversion. -/
def getArticlesByTickerUrl (baseUrl ticker : String) (page perPage : Nat) : String :=
  baseUrl ++ "/articles/ticker/" ++ ticker ++ "?page=" ++ toString page ++
    "&per_page=" ++ toString perPage

/-- A defined query-parameter value: a number or a string, as passed to
`URLSearchParams.append` after `value.toString()`. -/
inductive ParamValue where
  | nat (n : Nat)
  | str (s : String)
deriving DecidableEq, Repr

/-- JavaScript `value.toString()` on a query-parameter value. -/
def ParamValue.toStr : ParamValue → String
  | .nat n => toString n
  | .str s => s

/-- The `URLSearchParams` built by `getArticles`/`getAllTopics`:
`Object.entries(params).forEach` appends `(key, value.toString())` for every
entry whose value is not `undefined`, in entry order. -/
def buildQueryPairs (entries : List (String × Option ParamValue)) : List (String × String) :=
  entries.foldl
    (fun qp kv =>
      match kv.2 with
      | none => qp
      | some v => qp ++ [(kv.1, v.toStr)])
    []

/-- Query pairs of `getArticles(params)` with its six optional parameters. -/
def getArticlesQuery (page perPage : Option Nat) (ticker search provider topic : Option String) :
    List (String × String) :=
  buildQueryPairs
    [("page", page.map ParamValue.nat), ("per_page", perPage.map ParamValue.nat),
     ("ticker", ticker.map ParamValue.str), ("search", search.map ParamValue.str),
     ("provider", provider.map ParamValue.str), ("topic", topic.map ParamValue.str)]

/-- Query pairs of `getAllTopics(params)` with its three optional parameters. -/
def getAllTopicsQuery (q : Option String) (page perPage : Option Nat) :
    List (String × String) :=
  buildQueryPairs
    [("q", q.map ParamValue.str), ("page", page.map ParamValue.nat),
     ("per_page", perPage.map ParamValue.nat)]

/-- A search-debounce state: fetches already fired as
`(fireTime, page, searchText)` triples, and the single pending timer. -/
structure DebounceState where
  fired : List (Nat × Nat × String)
  pending : Option (Nat × String)
deriving DecidableEq, Repr

/-- The debounce delay of `handleSearch`, in milliseconds. -/
def searchDebounceMs : Nat := 500

/-- Home screen `handleSearch(text)` at keystroke time `t`: a pending timer
whose deadline already passed has fired (`clearTimeout` of an expired timer
is a no-op), emitting `loadArticles(1, text)` for its text; otherwise
`clearTimeout` cancels it; a new timer for `loadArticles(1, text)` is
scheduled `500` ms from now. -/
def handleSearchKeystroke (st : DebounceState) (t : Nat) (text : String) : DebounceState :=
  let fired :=
    match st.pending with
    | some (ft, s) => if ft ≤ t then st.fired ++ [(ft, 1, s)] else st.fired
    | none => st.fired
  { fired := fired, pending := some (t + searchDebounceMs, text) }

/-- Run a burst of keystrokes, each given as `(time, searchText)`, from an
idle debounce state. -/
def runKeystrokes (ks : List (Nat × String)) : DebounceState :=
  ks.foldl (fun st k => handleSearchKeystroke st k.1 k.2) { fired := [], pending := none }

/-- All fetches fired by time `deadline`: the already-fired ones plus the
pending timer if its deadline has been reached. -/
def firedBy (st : DebounceState) (deadline : Nat) : List (Nat × Nat × String) :=
  match st.pending with
  | some (ft, s) => if ft ≤ deadline then st.fired ++ [(ft, 1, s)] else st.fired
  | none => st.fired

/-- A chat message role. -/
inductive Role where
  | system
  | user
  | assistant
deriving DecidableEq, Repr

/-- A message as sent to the completion provider. -/
structure Message where
  role : Role
  content : String
deriving DecidableEq, Repr

/-- A transcript entry of the chat screen. -/
structure ChatMessage where
  id : String
  role : Role
  content : String
  timestamp : Nat
deriving DecidableEq, Repr

/-- JavaScript `String.prototype.trim`: strip leading and trailing
whitespace, modelled character-wise over the string's characters. -/
def jsTrim (s : String) : String :=
  ⟨((s.data.dropWhile Char.isWhitespace).reverse.dropWhile Char.isWhitespace).reverse⟩

/-- State of the chat screen: the transcript, the input field, and the
single-flight `isLoading` flag. -/
structure ChatState where
  messages : List ChatMessage
  inputText : String
  isLoading : Bool
deriving DecidableEq, Repr

/-- Chat screen `handleSendMessage(messageText?)` up to the provider call:
`text` is `messageText || inputText` (JS truthiness); if `text` trims to
empty or a send is in flight, nothing happens; otherwise the user message is
appended optimistically, the input is cleared, `isLoading` is set, and the
non-system transcript plus the new user message is sent to the provider.
Returns the new state and the provider payload, `none` when no call is made. -/
def handleSendMessage (st : ChatState) (messageText : Option String) (now : Nat) :
    ChatState × Option (List Message) :=
  let text := jsOrString messageText st.inputText
  if jsTrim text = "" ∨ st.isLoading = true then
    (st, none)
  else
    let userMessage : ChatMessage :=
      { id := toString now, role := Role.user, content := jsTrim text, timestamp := now }
    let conversationHistory : List Message :=
      ((st.messages.filter (fun m => m.role != Role.system)).map
        (fun m => { role := m.role, content := m.content })) ++
      [{ role := Role.user, content := jsTrim text }]
    ({ messages := st.messages ++ [userMessage], inputText := "", isLoading := true },
     some conversationHistory)

/-- The article context a chat session may be grounded in. -/
structure ArticleContext where
  title : String
  summary : String
  bullets : List String
  tickers : List (String × String)
deriving DecidableEq, Repr

/-- Chat screen context parsing: `params.context ? JSON.parse(params.context)
: undefined` inside a try/catch whose catch sets `articleContext` to
`undefined`. `JSON.parse` is abstracted as a partial function `jsonParse`
(`none` models a parse exception); an absent or empty (falsy) parameter
skips parsing. -/
def parseArticleContextParam (jsonParse : String → Option ArticleContext)
    (contextParam : Option String) : Option ArticleContext :=
  match contextParam with
  | none => none
  | some s => if s = "" then none else jsonParse s

/-- The welcome message content synthesized on mount, which is the only
mount-time output that depends on the parsed article context. -/
def welcomeMessageContent (articleContext : Option ArticleContext) : String :=
  match articleContext with
  | some ctx =>
      "Hi! I\x27m here to help you understand this article about " ++
        String.intercalate ", " (ctx.tickers.map Prod.snd) ++ ". What would you like to know?"
  | none => "Hi! I\x27m Sensybull. How can I help you today?"

/-! Helper lemmas about the JavaScript map and storage models. -/

theorem mapGet_mapSet_self {α : Type} (m : List (String × α)) (k : String) (v : α) :
    mapGet (mapSet m k v) k = some v := by
  induction m with
  | nil => simp [mapGet, mapSet]
  | cons p rest ih =>
      by_cases h : p.1 = k
      · simp [mapGet, mapSet, h]
      · have hb : (p.1 == k) = false := by simpa using h
        simp only [mapSet, hb, if_false]
        simpa [mapGet, List.find?, hb] using ih

theorem mapGet_cons {α : Type} (p : String × α) (rest : List (String × α)) (k : String) :
    mapGet (p :: rest) k = if p.1 == k then some p.2 else mapGet rest k := by
  by_cases h : (p.1 == k) = true
  · simp [mapGet, List.find?_cons, h]
  · simp only [Bool.not_eq_true] at h
    simp [mapGet, List.find?_cons, h]

theorem mapGet_storageRemove (m : List (String × String)) (k k2 : String) :
    mapGet (storageRemove m k) k2 = if k2 = k then none else mapGet m k2 := by
  induction m with
  | nil => simp [mapGet, storageRemove]
  | cons p rest ih =>
      simp only [storageRemove] at ih ⊢
      rw [List.filter_cons]
      by_cases hpk : p.1 = k
      · have hb : (p.1 != k) = false := by simp [hpk]
        simp only [hb, Bool.false_eq_true, if_false]
        rw [ih, mapGet_cons]
        by_cases hk2 : k2 = k
        · simp [hk2]
        · have hp2 : (p.1 == k2) = false := by
            simp only [beq_eq_false_iff_ne]
            intro hc
            exact hk2 (by rw [← hc, hpk])
          simp [hk2, hp2]
      · have hb : (p.1 != k) = true := by simp [hpk]
        simp only [hb, if_true]
        rw [mapGet_cons, mapGet_cons]
        by_cases hp2 : (p.1 == k2) = true
        · have hk2 : ¬ k2 = k := by
            intro hc
            exact hpk (by rw [eq_of_beq hp2, hc])
          simp [hp2, hk2]
        · simp only [Bool.not_eq_true] at hp2
          simp only [hp2, Bool.false_eq_true, if_false]
          rw [ih]

/-! C1: deduplication of accumulated article lists. -/

/-- A fresh article with the given id: the dedup key is the id alone. -/
def mkArticle (i : String) : Article :=
  { id := i, title := "", summary := "", url := "", provider := "", timestamp := 0, tickers := [] }

/-- A page-1 response of 20 articles with ids a1..a20. -/
def page1Articles : List Article :=
  (List.range 20).map (fun i => mkArticle ("a" ++ toString (i + 1)))

/-- A page-2 response of 20 articles, 5 of which (a16..a20) share ids with
page 1 and 15 of which (b1..b15) are new. -/
def page2Articles : List Article :=
  ((List.range 5).map (fun i => mkArticle ("a" ++ toString (i + 16)))) ++
    ((List.range 15).map (fun i => mkArticle ("b" ++ toString (i + 1))))

/-- C1 counterexample: on the home screen pager cited by the claim
(`loadArticles`, `src/unnamed/part_000` lines 178–201), loading page 1 (20
articles) and then page 2 (20 articles, 5 shared ids) yields 40 accumulated
entries, not 35, and the accumulated list does contain two entries with the
same article id: the append path has no deduplication. -/
theorem c1_counterexample :
    ((loadArticlesSuccess (loadArticlesSuccess homeFeedInit 1
        { articles := page1Articles, pagination := { has_next := true } }) 2
        { articles := page2Articles, pagination := { has_next := true } }).articles.length = 40) ∧
    ¬ (((loadArticlesSuccess (loadArticlesSuccess homeFeedInit 1
        { articles := page1Articles, pagination := { has_next := true } }) 2
        { articles := page2Articles, pagination := { has_next := true } }).articles.map
          Article.id).Nodup) := by
  decide

theorem topicLoad_preserves_nodup (st : TopicFeedState) (topicId : String) (pageNum : Nat)
    (resp : ArticlesResponse)
    (hst : (((mapGet st.articlesByTopic topicId).getD []).map Article.id).Nodup)
    (hresp : (resp.articles.map Article.id).Nodup) :
    (((mapGet (loadArticlesForTopicSuccess st topicId pageNum resp).articlesByTopic
        topicId).getD []).map Article.id).Nodup := by
  simp only [loadArticlesForTopicSuccess, mapGet_mapSet_self, Option.getD_some]
  by_cases hp : pageNum = 1
  · simpa [hp] using hresp
  · simp only [hp, if_false]
    set existingArticles := (mapGet st.articlesByTopic topicId).getD [] with hex
    set filtered := resp.articles.filter
      (fun a => !((existingArticles.map Article.id).contains a.id)) with hfil
    rw [List.map_append, List.nodup_append]
    refine ⟨hst, ?_, ?_⟩
    · exact List.Nodup.sublist (List.Sublist.map Article.id (List.filter_sublist _)) hresp
    · intro x hx hx2
      rcases List.mem_map.mp hx2 with ⟨b, hb, hbid⟩
      rw [hfil] at hb
      rcases List.mem_filter.mp hb with ⟨_, hpred⟩
      rw [hbid] at hpred
      simp only [List.contains, List.elem_eq_mem, Bool.not_eq_true', decide_eq_false_iff_not]
        at hpred
      exact hpred hx

/-- C1 theorem (amended): for the topic feed pager
(`loadArticlesForTopic`), any sequence of completed loads whose server pages
each carry internally distinct article ids keeps the accumulated list free
of duplicate ids — an incoming article whose id is already accumulated is
dropped; moreover, in the claim scenario (page 1 of 20 articles, page 2 of
20 articles of which 5 share ids with page 1) the topic feed accumulates
exactly 35 entries. -/
theorem c1_theorem :
    (∀ (st : TopicFeedState) (topicId : String) (steps : List (Nat × ArticlesResponse)),
      (((mapGet st.articlesByTopic topicId).getD []).map Article.id).Nodup →
      (∀ pr ∈ steps, (pr.2.articles.map Article.id).Nodup) →
      (((mapGet (runTopicLoads st topicId steps).articlesByTopic topicId).getD
          []).map Article.id).Nodup) ∧
    ((mapGet (runTopicLoads topicFeedInit "t"
        [(1, { articles := page1Articles, pagination := { has_next := true } }),
         (2, { articles := page2Articles, pagination := { has_next := true } })]).articlesByTopic
        "t").getD []).length = 35 := by
  constructor
  · intro st topicId steps
    induction steps generalizing st with
    | nil => intro hst _; simpa [runTopicLoads] using hst
    | cons pr rest ih =>
        intro hst hsteps
        have h1 : ((pr.2.articles.map Article.id)).Nodup := hsteps pr (by simp)
        have hstep := topicLoad_preserves_nodup st topicId pr.1 pr.2 hst h1
        have := ih (loadArticlesForTopicSuccess st topicId pr.1 pr.2) hstep
          (fun q hq => hsteps q (by simp [hq]))
        simpa [runTopicLoads] using this
  · decide

/-- C1 witness: the invariant applied to the concrete two-page scenario of
the claim, starting from the empty topic feed. -/
theorem c1_witness :
    (((mapGet (runTopicLoads topicFeedInit "t"
        [(1, { articles := page1Articles, pagination := { has_next := true } }),
         (2, { articles := page2Articles, pagination := { has_next := true } })]).articlesByTopic
        "t").getD []).map Article.id).Nodup :=
  c1_theorem.1 topicFeedInit "t"
    [(1, { articles := page1Articles, pagination := { has_next := true } }),
     (2, { articles := page2Articles, pagination := { has_next := true } })]
    (by decide) (by decide)

/-! C2: what a successful page-1 load does to the pager state. -/

/-- C2 counterexample: on the stock-timeline pager cited by the claim
(`loadArticles`, `src/app/stock/[symbol].tsx` lines 154–183), a successful
page-1 fetch whose response has `pagination.has_next = true` but only one
article leaves the has-more flag `false`: the flag is derived from the
returned article count, not from the pagination metadata. -/
theorem c2_counterexample :
    (stockLoadArticlesSuccess
        { articles := [], loading := true, loadingMore := false, page := 1, hasMore := true } 1
        { articles := [mkArticle "x"], pagination := { has_next := true } }).hasMore = false ∧
    ({ articles := [mkArticle "x"], pagination := { has_next := true } } :
        ArticlesResponse).pagination.has_next = true := by
  decide

/-- C2 theorem (amended): for every prior state and page-1 response, the home
screen `loadArticles` replaces the article list with the response articles,
sets has-more from `pagination.has_next` and resets the page counter to 1,
while the stock screen `loadArticles` also replaces the list and resets the
page counter but derives has-more as "the response returned exactly 20
articles", ignoring the pagination metadata. -/
theorem c2_theorem :
    ∀ (st : HomeFeedState) (st2 : StockFeedState) (r r2 : ArticlesResponse),
      (loadArticlesSuccess st 1 r).articles = r.articles ∧
      (loadArticlesSuccess st 1 r).hasMore = r.pagination.has_next ∧
      (loadArticlesSuccess st 1 r).page = 1 ∧
      (stockLoadArticlesSuccess st2 1 r2).articles = r2.articles ∧
      (stockLoadArticlesSuccess st2 1 r2).hasMore = (r2.articles.length == 20) ∧
      (stockLoadArticlesSuccess st2 1 r2).page = 1 := by
  intro st st2 r r2
  simp [loadArticlesSuccess, stockLoadArticlesSuccess]

/-! C3: a 401 response clears both stored tokens and fails with
`Authentication required`. -/

/-- C3 theorem: for every prior token-store state and every response with
status 401, `handleResponse` leaves no persisted `access_token`, no
persisted `refresh_token`, a null in-memory token, and fails with the
authentication-required error. -/
theorem c3_theorem :
    ∀ (st : ApiState) (r : HttpResponse), r.status = 401 →
      mapGet (handleResponse st r).1.storage "access_token" = none ∧
      mapGet (handleResponse st r).1.storage "refresh_token" = none ∧
      (handleResponse st r).1.token = none ∧
      (handleResponse st r).2 = Except.error ApiError.authenticationRequired := by
  intro st r h
  simp [handleResponse, h, clearToken, mapGet_storageRemove]

/-- C3 witness: a 401 received while both tokens are stored and an in-memory
token is set clears everything and fails with the auth error. -/
theorem c3_witness :
    mapGet (handleResponse
        { storage := [("access_token", "tok"), ("refresh_token", "ref")], token := some "tok" }
        { status := 401, body := none }).1.storage "access_token" = none ∧
    mapGet (handleResponse
        { storage := [("access_token", "tok"), ("refresh_token", "ref")], token := some "tok" }
        { status := 401, body := none }).1.storage "refresh_token" = none ∧
    (handleResponse
        { storage := [("access_token", "tok"), ("refresh_token", "ref")], token := some "tok" }
        { status := 401, body := none }).1.token = none ∧
    (handleResponse
        { storage := [("access_token", "tok"), ("refresh_token", "ref")], token := some "tok" }
        { status := 401, body := none }).2 = Except.error ApiError.authenticationRequired :=
  c3_theorem
    { storage := [("access_token", "tok"), ("refresh_token", "ref")], token := some "tok" }
    { status := 401, body := none } rfl

/-! C4: guarding of loadNext calls. -/

/-- C4 counterexample: the swipe screen `handleSwipedAll` cited by the claim
(`src/unnamed/part_000` lines 1161–1172) issues a fetch for the next page
even while another load is already in flight (`fetchingMore = true`): it has
no guard at all, so the call is not a no-op. -/
theorem c4_counterexample :
    handleSwipedAll
        { articles := [], loading := false, currentIndex := 0, fetchingMore := true,
          page := 3 } ≠ none ∧
    ({ articles := [], loading := false, currentIndex := 0, fetchingMore := true, page := 3 } :
        SwipeState).fetchingMore = true := by
  decide

/-- C4 theorem (amended): the topic-tab `handleLoadMore` is a no-op (no
fetch issued) when a load is already in flight or when the selected topic's
has-more flag is false, whereas the swipe screen `handleSwipedAll`
unconditionally issues a fetch for the next page, with no in-flight or
has-more guard. -/
theorem c4_theorem :
    ∀ (st : TopicFeedState) (topics : List Topic) (idx : Nat),
      (st.loadingArticles = true → handleLoadMore st topics idx = none) ∧
      (mapGet st.hasMore (topics.getD idx ⟨"", ""⟩).id = some false →
        handleLoadMore st topics idx = none) ∧
      (∀ st2 : SwipeState, handleSwipedAll st2 = some (st2.page + 1)) := by
  intro st topics idx
  refine ⟨?_, ?_, fun st2 => rfl⟩
  · intro h
    simp [handleLoadMore, h]
  · intro h
    by_cases hg : 0 < topics.length ∧ st.loadingArticles = false
    · simp only [List.getD_eq_getElem?_getD] at h
      simp [handleLoadMore, hg, h]
    · simp [handleLoadMore, hg]

/-- A topic feed with a load already in flight. -/
def loadingTopicFeed : TopicFeedState :=
  { articlesByTopic := [], page := [], hasMore := [], loadingArticles := true }

/-- A topic feed whose topic `t` has its has-more flag stored as false. -/
def exhaustedTopicFeed : TopicFeedState :=
  { articlesByTopic := [], page := [], hasMore := [("t", false)], loadingArticles := false }

/-- C4 witness: with a load in flight, and separately with the selected
topic's has-more flag stored as false, `handleLoadMore` issues no fetch. -/
theorem c4_witness :
    handleLoadMore loadingTopicFeed [{ id := "t", name := "T" }] 0 = none ∧
    handleLoadMore exhaustedTopicFeed [{ id := "t", name := "T" }] 0 = none :=
  ⟨(c4_theorem loadingTopicFeed [{ id := "t", name := "T" }] 0).1 rfl,
   (c4_theorem exhaustedTopicFeed [{ id := "t", name := "T" }] 0).2.1 (by decide)⟩

/-! C5: what happens when fetch responses arrive out of dispatch order. -/

/-- The feed state after a set of search-fetch responses has arrived: each
response `(pageNum, response)` is applied by the `loadArticles` success path
in arrival order; the code carries no request sequence number or staleness
guard, so every arriving response is applied. -/
def applyResponsesInArrivalOrder (st : HomeFeedState) (arrivals : List (Nat × ArticlesResponse)) :
    HomeFeedState :=
  arrivals.foldl (fun s pr => loadArticlesSuccess s pr.1 pr.2) st

/-- C5 theorem: two page-1 search fetches are dispatched in order (the first
for a response carrying the article `stale`, the newer for `fresh`); the
newer response arrives first and the earlier response arrives second. The
code applies both in arrival order, so the feed state finally applied holds
the earlier request's articles — the stale response is not discarded,
contradicting the claimed last-request-wins rule. -/
theorem c5_theorem :
    (applyResponsesInArrivalOrder homeFeedInit
        [(1, { articles := [mkArticle "fresh"], pagination := { has_next := false } }),
         (1, { articles := [mkArticle "stale"], pagination := { has_next := true } })]).articles =
      [mkArticle "stale"] ∧
    [mkArticle "stale"] ≠ [mkArticle "fresh"] := by
  decide

/-! C6: case canonicalization of ticker symbols placed in URL paths. -/

theorem char_toNat_ofNat {n : Nat} (h : n.isValidChar) : (Char.ofNat n).toNat = n := by
  simp only [Char.ofNat]
  rw [dif_pos h]
  rfl

theorem charToUpper_idem (c : Char) : Char.toUpper (Char.toUpper c) = Char.toUpper c := by
  simp only [Char.toUpper]
  by_cases h : c.toNat ≥ 97 ∧ c.toNat ≤ 122
  · rw [if_pos h]
    have hv : Nat.isValidChar (c.toNat - 32) := Or.inl (by omega)
    have ht : (Char.ofNat (c.toNat - 32)).toNat = c.toNat - 32 := char_toNat_ofNat hv
    rw [if_neg]
    rw [ht]
    omega
  · rw [if_neg h, if_neg h]

theorem jsToUpperCase_idem (s : String) : jsToUpperCase (jsToUpperCase s) = jsToUpperCase s := by
  simp only [jsToUpperCase, List.map_map]
  congr 1
  exact List.map_congr_left (fun c _ => charToUpper_idem c)

/-- C6 counterexample: `getArticlesByTicker`, one of the operations the claim
covers, places the ticker symbol into the URL path as passed: for the input
`aapl` the request URL contains the lowercase form, and case-variant inputs
produce different URLs, so the symbol is not canonicalized to uppercase. -/
theorem c6_counterexample :
    getArticlesByTickerUrl "https://api.example" "aapl" 1 20 =
      "https://api.example/articles/ticker/aapl?page=1&per_page=20" ∧
    getArticlesByTickerUrl "https://api.example" "aapl" 1 20 ≠
      getArticlesByTickerUrl "https://api.example" "AAPL" 1 20 ∧
    getTickerUrl "https://api.example" "aapl" = "https://api.example/tickers/AAPL" := by
  decide

/-- C6 theorem (amended): `getTicker`, `followTicker` and `unfollowTicker`
canonicalize the ticker symbol to uppercase at the client boundary — their
request URLs are invariant under uppercasing the input symbol, so only the
uppercase form reaches the path — while `getArticlesByTicker` places the
symbol in the path unchanged. -/
theorem c6_theorem :
    ∀ baseUrl sym : String,
      getTickerUrl baseUrl sym = getTickerUrl baseUrl (jsToUpperCase sym) ∧
      followTickerUrl baseUrl sym = followTickerUrl baseUrl (jsToUpperCase sym) ∧
      unfollowTickerUrl baseUrl sym = unfollowTickerUrl baseUrl (jsToUpperCase sym) ∧
      getArticlesByTickerUrl baseUrl sym 1 20 =
        baseUrl ++ "/articles/ticker/" ++ sym ++ "?page=1&per_page=20" := by
  intro b s
  have hlit : "?page=" ++ (toString 1 ++ ("&per_page=" ++ toString 20)) =
      "?page=1&per_page=20" := by decide
  refine ⟨?_, ?_, ?_, ?_⟩
  · simp [getTickerUrl, jsToUpperCase_idem]
  · simp [followTickerUrl, jsToUpperCase_idem]
  · simp [unfollowTickerUrl, jsToUpperCase_idem]
  · simp [getArticlesByTickerUrl, String.append_assoc, ← hlit]

/-! C7: undefined query parameters are omitted from the query string. -/

theorem buildQueryPairs_eq_filterMap (entries : List (String × Option ParamValue)) :
    buildQueryPairs entries =
      entries.filterMap (fun kv => kv.2.map (fun v => (kv.1, v.toStr))) := by
  suffices h : ∀ acc : List (String × String),
      entries.foldl
        (fun qp kv => match kv.2 with | none => qp | some v => qp ++ [(kv.1, v.toStr)]) acc =
      acc ++ entries.filterMap (fun kv => kv.2.map (fun v => (kv.1, v.toStr))) by
    simpa [buildQueryPairs] using h []
  induction entries with
  | nil => intro acc; simp
  | cons kv rest ih =>
      intro acc
      cases h : kv.2 with
      | none => simp [h, ih]
      | some v => simp [h, ih]

theorem mem_buildQueryPairs_of_mem (entries : List (String × Option ParamValue)) (k : String)
    (v : ParamValue) (h : (k, some v) ∈ entries) :
    (k, v.toStr) ∈ buildQueryPairs entries := by
  rw [buildQueryPairs_eq_filterMap]
  exact List.mem_filterMap.mpr ⟨(k, some v), h, rfl⟩

theorem key_absent_buildQueryPairs (entries : List (String × Option ParamValue)) (k : String)
    (h : ∀ ov, (k, ov) ∈ entries → ov = none) :
    k ∉ (buildQueryPairs entries).map Prod.fst := by
  rw [buildQueryPairs_eq_filterMap]
  intro hk
  rcases List.mem_map.mp hk with ⟨pair, hp, hfst⟩
  rcases List.mem_filterMap.mp hp with ⟨kv, hkv, hmap⟩
  cases hov : kv.2 with
  | none => rw [hov] at hmap; simp at hmap
  | some v =>
      rw [hov] at hmap
      simp only [Option.map_some'] at hmap
      have hpair : (kv.1, v.toStr) = pair := Option.some.inj hmap
      have hk1 : kv.1 = k := by rw [← hpair] at hfst; simpa using hfst
      have hnone := h kv.2 (by rw [← hk1]; simpa using hkv)
      rw [hov] at hnone
      exact Option.noConfusion hnone

/-- C7 theorem: in the query built by `getArticles`, a parameter passed as
`undefined` contributes no key-value pair at all (its key does not occur),
and a defined parameter appears with its stringified value; likewise for
the three parameters of `getAllTopics`. -/
theorem c7_theorem :
    (∀ (page perPage : Option Nat) (ticker search provider topic : Option String),
      (page = none →
        "page" ∉ (getArticlesQuery page perPage ticker search provider topic).map Prod.fst) ∧
      (∀ n, page = some n →
        ("page", toString n) ∈ getArticlesQuery page perPage ticker search provider topic) ∧
      (perPage = none →
        "per_page" ∉ (getArticlesQuery page perPage ticker search provider topic).map Prod.fst) ∧
      (∀ n, perPage = some n →
        ("per_page", toString n) ∈ getArticlesQuery page perPage ticker search provider topic) ∧
      (ticker = none →
        "ticker" ∉ (getArticlesQuery page perPage ticker search provider topic).map Prod.fst) ∧
      (∀ s, ticker = some s →
        ("ticker", s) ∈ getArticlesQuery page perPage ticker search provider topic) ∧
      (search = none →
        "search" ∉ (getArticlesQuery page perPage ticker search provider topic).map Prod.fst) ∧
      (∀ s, search = some s →
        ("search", s) ∈ getArticlesQuery page perPage ticker search provider topic) ∧
      (provider = none →
        "provider" ∉ (getArticlesQuery page perPage ticker search provider topic).map Prod.fst) ∧
      (∀ s, provider = some s →
        ("provider", s) ∈ getArticlesQuery page perPage ticker search provider topic) ∧
      (topic = none →
        "topic" ∉ (getArticlesQuery page perPage ticker search provider topic).map Prod.fst) ∧
      (∀ s, topic = some s →
        ("topic", s) ∈ getArticlesQuery page perPage ticker search provider topic)) ∧
    (∀ (q : Option String) (page perPage : Option Nat),
      (q = none → "q" ∉ (getAllTopicsQuery q page perPage).map Prod.fst) ∧
      (∀ s, q = some s → ("q", s) ∈ getAllTopicsQuery q page perPage) ∧
      (page = none → "page" ∉ (getAllTopicsQuery q page perPage).map Prod.fst) ∧
      (∀ n, page = some n → ("page", toString n) ∈ getAllTopicsQuery q page perPage) ∧
      (perPage = none → "per_page" ∉ (getAllTopicsQuery q page perPage).map Prod.fst) ∧
      (∀ n, perPage = some n → ("per_page", toString n) ∈ getAllTopicsQuery q page perPage)) := by
  constructor
  · intro page perPage ticker search provider topic
    refine ⟨?_, ?_, ?_, ?_, ?_, ?_, ?_, ?_, ?_, ?_, ?_, ?_⟩
    · intro h
      subst h
      apply key_absent_buildQueryPairs
      intro ov hov
      simpa using hov
    · intro n h
      subst h
      exact mem_buildQueryPairs_of_mem _ "page" (ParamValue.nat n) (by simp)
    · intro h
      subst h
      apply key_absent_buildQueryPairs
      intro ov hov
      simpa using hov
    · intro n h
      subst h
      exact mem_buildQueryPairs_of_mem _ "per_page" (ParamValue.nat n) (by simp)
    · intro h
      subst h
      apply key_absent_buildQueryPairs
      intro ov hov
      simpa using hov
    · intro s h
      subst h
      exact mem_buildQueryPairs_of_mem _ "ticker" (ParamValue.str s) (by simp)
    · intro h
      subst h
      apply key_absent_buildQueryPairs
      intro ov hov
      simpa using hov
    · intro s h
      subst h
      exact mem_buildQueryPairs_of_mem _ "search" (ParamValue.str s) (by simp)
    · intro h
      subst h
      apply key_absent_buildQueryPairs
      intro ov hov
      simpa using hov
    · intro s h
      subst h
      exact mem_buildQueryPairs_of_mem _ "provider" (ParamValue.str s) (by simp)
    · intro h
      subst h
      apply key_absent_buildQueryPairs
      intro ov hov
      simpa using hov
    · intro s h
      subst h
      exact mem_buildQueryPairs_of_mem _ "topic" (ParamValue.str s) (by simp)
  · intro q page perPage
    refine ⟨?_, ?_, ?_, ?_, ?_, ?_⟩
    · intro h
      subst h
      apply key_absent_buildQueryPairs
      intro ov hov
      simpa using hov
    · intro s h
      subst h
      exact mem_buildQueryPairs_of_mem _ "q" (ParamValue.str s) (by simp)
    · intro h
      subst h
      apply key_absent_buildQueryPairs
      intro ov hov
      simpa using hov
    · intro n h
      subst h
      exact mem_buildQueryPairs_of_mem _ "page" (ParamValue.nat n) (by simp)
    · intro h
      subst h
      apply key_absent_buildQueryPairs
      intro ov hov
      simpa using hov
    · intro n h
      subst h
      exact mem_buildQueryPairs_of_mem _ "per_page" (ParamValue.nat n) (by simp)

/-- C7 witness: concrete calls showing a defined parameter in the built
query and an undefined parameter absent from it, for both endpoints. -/
theorem c7_witness :
    ("page", toString 1) ∈ getArticlesQuery (some 1) (some 20) none (some "fed") none none ∧
    "ticker" ∉ (getArticlesQuery (some 1) (some 20) none (some "fed") none none).map Prod.fst ∧
    ("q", "ai") ∈ getAllTopicsQuery (some "ai") none none ∧
    "page" ∉ (getAllTopicsQuery (some "ai") none none).map Prod.fst :=
  ⟨((c7_theorem.1 (some 1) (some 20) none (some "fed") none none).2.1) 1 rfl,
   ((c7_theorem.1 (some 1) (some 20) none (some "fed") none none).2.2.2.2.1) rfl,
   ((c7_theorem.2 (some "ai") none none).2.1) "ai" rfl,
   ((c7_theorem.2 (some "ai") none none).2.2.1) rfl⟩

/-! C8: the debounced article search. -/

/-- C8 theorem: with the 500 ms debounce of `handleSearch`, keystrokes at
t = 0, 100, 200 and 300 ms each cancel the previously scheduled load and
reschedule; once the burst settles, exactly one fetch has been issued, it is
a page-1 fetch carrying the text of the t = 300 ms keystroke, and it fires
at t = 800 ms. -/
theorem c8_theorem :
    firedBy (runKeystrokes [(0, "f"), (100, "fo"), (200, "foo"), (300, "food")]) 10000 =
      [(800, 1, "food")] := by
  decide

/-! C9: empty and overlapping chat sends are no-ops. -/

/-- C9 theorem: for every chat state, optional message text and send time,
if the resolved text trims to empty or a send is already in flight,
`handleSendMessage` leaves the whole state (the transcript included)
unchanged and issues no provider call. -/
theorem c9_theorem :
    ∀ (st : ChatState) (messageText : Option String) (now : Nat),
      (jsTrim (jsOrString messageText st.inputText) = "" ∨ st.isLoading = true) →
      handleSendMessage st messageText now = (st, none) := by
  intro st mt now h
  simp only [handleSendMessage]
  rw [if_pos h]

/-- A chat state with one assistant message, an empty input and no send in
flight. -/
def chatReadyState : ChatState :=
  { messages := [{ id := "1", role := Role.assistant, content := "Hi!", timestamp := 1 }],
    inputText := "", isLoading := false }

/-- C9 witness: sending three spaces while idle changes nothing and calls no
provider; so does sending a nonempty text while a send is in flight. -/
theorem c9_witness :
    handleSendMessage chatReadyState (some "   ") 5 = (chatReadyState, none) ∧
    handleSendMessage { chatReadyState with isLoading := true } (some "question") 5 =
      ({ chatReadyState with isLoading := true }, none) :=
  ⟨c9_theorem chatReadyState (some "   ") 5 (Or.inl (by decide)),
   c9_theorem { chatReadyState with isLoading := true } (some "question") 5 (Or.inr rfl)⟩

/-! C10: a malformed chat context route parameter is swallowed. -/

/-- C10 theorem: for every behaviour of `JSON.parse` and every context
string on which parsing fails, the chat screen's guarded context parsing
yields no article context — exactly the value produced when no context
parameter is supplied at all — and the mount-time welcome message is the
same as with no context; the parse failure is caught, not propagated. -/
theorem c10_theorem :
    ∀ (jsonParse : String → Option ArticleContext) (s : String),
      jsonParse s = none →
      parseArticleContextParam jsonParse (some s) = parseArticleContextParam jsonParse none ∧
      welcomeMessageContent (parseArticleContextParam jsonParse (some s)) =
        welcomeMessageContent none := by
  intro jp s h
  have h1 : parseArticleContextParam jp (some s) = none := by
    simp only [parseArticleContextParam]
    by_cases hs : s = "" <;> simp [hs, h]
  exact ⟨by rw [h1]; rfl, by rw [h1]⟩

/-- C10 witness: a context parameter that is not valid JSON (every parse
fails on it) produces the same screen state as no context parameter. -/
theorem c10_witness :
    parseArticleContextParam (fun _ => none) (some "not valid json") =
      parseArticleContextParam (fun _ => none) none ∧
    welcomeMessageContent (parseArticleContextParam (fun _ => none) (some "not valid json")) =
      welcomeMessageContent none :=
  c10_theorem (fun _ => none) "not valid json" rfl

end Sensybull
